import Mathlib

/-!
Verification development for the fotmob-listserv caching subsystem.

Shallow embedding of the Python sources:
  * fotmoblistserv/shared.py  — ImmutableDictConverter.convert and friends;
  * fotmoblistserv/api.py     — handle_response, FotmobEntity.should_update_local,
                                FotmobEntity.get_item, FotmobEntity.save,
                                FotmobEntity.get_local_file, the TTL-cached API.get_player;
  * fotmoblistserv/objects.py — League.get_totw_for_week.

Python values that can appear in decoded JSON and in the converter domain are
modelled by the inductive type `PyVal`; stateful code (the snapshot files on disk,
the in-memory TTL cache) is modelled by explicit state passing; wall-clock time is
an explicit rational-number parameter; Python exceptions are modelled with `Except`.
All definitions come first, followed by the theorems.
-/

/-- Python values handled by `ImmutableDictConverter.convert` (shared.py).
`dict`/`list` are the plain mutable containers; `proxy`/`tuple` are the
read-only `MappingProxyType` view and the fixed-length tuple.  Mapping nodes
are association lists, preserving key insertion order like Python dicts. -/
inductive PyVal where
  | pynone : PyVal
  | pybool (b : Bool) : PyVal
  | num (q : ℚ) : PyVal
  | str (s : String) : PyVal
  | list (xs : List PyVal) : PyVal
  | tuple (xs : List PyVal) : PyVal
  | dict (kvs : List (String × PyVal)) : PyVal
  | proxy (kvs : List (String × PyVal)) : PyVal

namespace PyVal

mutual

/-- Model of `ImmutableDictConverter.convert(data, make_immutable)`
(shared.py lines 41-53).  With `make_immutable=True`: `dict` becomes
`MappingProxyType` and `list` becomes `tuple`, recursing into values;
everything else (including an already-frozen `proxy`/`tuple`) is returned
unchanged.  With `make_immutable=False`: `MappingProxyType` becomes `dict`
and `tuple` becomes `list`, recursing; everything else (including
`dict`/`list`) is returned unchanged. -/
def convert : PyVal → Bool → PyVal
  | dict kvs, true => proxy (convertKVs kvs true)
  | list xs, true => tuple (convertList xs true)
  | proxy kvs, false => dict (convertKVs kvs false)
  | tuple xs, false => list (convertList xs false)
  | pynone, _ => pynone
  | pybool b, _ => pybool b
  | num q, _ => num q
  | str s, _ => str s
  | list xs, false => list xs
  | tuple xs, true => tuple xs
  | dict kvs, false => dict kvs
  | proxy kvs, true => proxy kvs

/-- The dict comprehension inside `convert`, item by item. -/
def convertKVs : List (String × PyVal) → Bool → List (String × PyVal)
  | [], _ => []
  | (k, v) :: kvs, b => (k, convert v b) :: convertKVs kvs b

/-- The tuple/list comprehension inside `convert`, item by item. -/
def convertList : List PyVal → Bool → List PyVal
  | [], _ => []
  | x :: xs, b => convert x b :: convertList xs b

end

/-- Model of `ImmutableDictConverter.to_immutable` (shared.py line 60). -/
def to_immutable (x : PyVal) : PyVal := convert x true

/-- Model of `ImmutableDictConverter.to_mutable` (shared.py line 56). -/
def to_mutable (x : PyVal) : PyVal := convert x false

mutual

/-- A value is JSON-representable when it is built only from null, bool,
number, string, plain mutable mapping and plain mutable sequence nodes
(exactly the shapes produced by `json.load`). -/
def isJsonRepr : PyVal → Bool
  | pynone => true
  | pybool _ => true
  | num _ => true
  | str _ => true
  | list xs => isJsonReprList xs
  | tuple _ => false
  | dict kvs => isJsonReprKVs kvs
  | proxy _ => false

def isJsonReprKVs : List (String × PyVal) → Bool
  | [] => true
  | (_, v) :: kvs => isJsonRepr v && isJsonReprKVs kvs

def isJsonReprList : List PyVal → Bool
  | [] => true
  | x :: xs => isJsonRepr x && isJsonReprList xs

end

end PyVal

/-! ## Freshness policy: FotmobEntity.should_update_local (api.py lines 138-152) -/

/-- Python `round` to the nearest integer, ties to the nearest even integer
(round-half-even), on exact rationals.  (Sub-ULP perturbation of exact
decimal ties by binary floating point is not modelled; no claim rests on a
tie.) -/
def pyRound (q : ℚ) : ℤ :=
  if q - Int.floor q < 1/2 then Int.floor q
  else if q - Int.floor q > 1/2 then Int.floor q + 1
  else if Int.floor q % 2 = 0 then Int.floor q else Int.floor q + 1

/-- Python `round(x, 1)`: round to one decimal place, ties to even. -/
def round1 (q : ℚ) : ℚ := (pyRound (10 * q) : ℚ) / 10

/-- The effective expiry computed by the first lines of
`should_update_local`: `if not expiry: expiry = 24 * 7` — `None` and the
falsy number `0` both fall back to the default of 168 hours. -/
def effectiveExpiry : Option ℚ → ℚ
  | none => 24 * 7
  | some q => if q = 0 then 24 * 7 else q

/-- Model of `FotmobEntity.should_update_local(force, expiry)` (api.py
lines 138-152).  `localAgeHours` is
`(time.time() - os.stat(local_file).st_ctime) / 3600` for the file returned
by `get_local_file`, or `none` when no local file exists. -/
def should_update_local (force : Bool) (expiry : Option ℚ) (localAgeHours : Option ℚ) : Bool :=
  let e := round1 (effectiveExpiry expiry)
  if force then true
  else
    match localAgeHours with
    | none => true
    | some hours => decide (hours > e)

/-- Modelled from the words of claim C1: fresh iff not forced, a snapshot
exists, and its age in hours is at most maxAgeHours, which is the expiry
argument when supplied and 168 otherwise. -/
def specFreshC1 (force : Bool) (expiry : Option ℚ) (localAgeHours : Option ℚ) : Bool :=
  if force then false
  else
    match localAgeHours with
    | none => false
    | some hours => decide (hours ≤ expiry.getD (24 * 7))

/-- Claim C1 as amended: same rule, but the threshold the code actually
uses is `round1` of the effective expiry (falsy expiry replaced by the
168-hour default, then rounded to one decimal place). -/
def specFreshC1Fixed (force : Bool) (expiry : Option ℚ) (localAgeHours : Option ℚ) : Bool :=
  if force then false
  else
    match localAgeHours with
    | none => false
    | some hours => decide (hours ≤ round1 (effectiveExpiry expiry))

/-! ## handle_response (api.py lines 19-33) and the entity fetch path -/

/-- Outcome of the `requests.get` + `raise_for_status` + `response.json()`
sequence inside `handle_response`. -/
inductive HttpOutcome where
  | success (body : PyVal)
  | httpError (status : Nat)
  | jsonDecodeError
  | networkError

def HttpOutcome.isSuccess : HttpOutcome → Bool
  | success _ => true
  | httpError _ => false
  | jsonDecodeError => false
  | networkError => false

/-- Model of `handle_response` (api.py lines 19-33): on success it returns
the decoded JSON body; a non-2xx status (`requests.HTTPError`), an
undecodable body (`JSONDecodeError`) and any other exception are each
caught, logged, and turned into the empty dict — no exception escapes. -/
def handle_response : HttpOutcome → PyVal
  | .success body => body
  | .httpError _ => .dict []
  | .jsonDecodeError => .dict []
  | .networkError => .dict []

/-- Modelled from the spec (section 7): the error the cache core is claimed
to propagate when a fetch fails with no usable snapshot. -/
inductive FetchError where
  | fetchError

/-- Model of `FotmobEntity.get_api_data` (api.py lines 129-133): calls the
API method for the entity and freezes the result with `to_immutable`.  The
`Except` layer models Python exception propagation out of the fetch step;
because `handle_response` catches every exception, no error is ever
produced. -/
def get_api_data (o : HttpOutcome) : Except FetchError PyVal :=
  Except.ok (PyVal.to_immutable (handle_response o))

/-! ## The TTL cache in front of API.get_player (api.py lines 75-77) -/

/-- One entry of the `cachetools.TTLCache`: the call signature (the player
id), the stored return value, and the wall-clock time at which the entry
expires (insertion time plus the TTL). -/
structure CacheEntry where
  key : Nat
  val : PyVal
  expires : ℚ

/-- Model of `API.get_player` under `@cached(TTLCache(maxsize=10,
ttl=60*60))` (api.py lines 75-77).  If the signature is present and
unexpired (`now < expires`), the cached value is returned and the wrapped
function does not run; otherwise the wrapped function — `handle_response`
on the playerData URL — runs, and its return value (whatever it is) is
stored with expiry `now + ttl`.  Returns the value, the new cache state,
and whether the wrapped function ran.  The capacity eviction of cachetools
at maxsize=10 is not modelled; no state considered here exceeds one entry. -/
def get_player_cached (entries : List CacheEntry) (now ttl : ℚ) (pid : Nat)
    (o : HttpOutcome) : PyVal × List CacheEntry × Bool :=
  match entries.find? (fun e => pid == e.key && decide (now < e.expires)) with
  | some e => (e.val, entries, false)
  | none =>
      let v := handle_response o
      (v, ⟨pid, v, now + ttl⟩ :: entries, true)

/-! ## FotmobEntity.get_item (api.py lines 135-136) -/

/-- Python `d.get(k, default)` on the item list of a mapping: the first
binding of the key, or the plain empty dict when the key is absent. -/
def mappingGetD (kvs : List (String × PyVal)) (k : String) : PyVal :=
  match kvs.find? (fun kv => kv.1 == k) with
  | some kv => kv.2
  | none => PyVal.dict []

/-- One step of the reduce in `get_item`, namely `d.get(k, {})`.  `.get`
exists on both `dict` and `MappingProxyType`; on any non-mapping value
Python raises `AttributeError`, modelled as `none`. -/
def getStep (d : PyVal) (k : String) : Option PyVal :=
  match d with
  | PyVal.dict kvs => some (mappingGetD kvs k)
  | PyVal.proxy kvs => some (mappingGetD kvs k)
  | _ => none

/-- Model of `FotmobEntity.get_item(*args)` (api.py lines 135-136):
`reduce(lambda d, k: d.get(k, dict()), args, self.local_data)`. -/
def get_item (localData : PyVal) (args : List String) : Option PyVal :=
  args.foldlM getStep localData

/-- Some key along the path is absent at a mapping level actually reached
(walking exactly as `get_item` does). -/
def pathMissing : PyVal → List String → Bool
  | _, [] => false
  | PyVal.dict kvs, k :: ks =>
      if kvs.any (fun kv => kv.1 == k) then pathMissing (mappingGetD kvs k) ks else true
  | PyVal.proxy kvs, k :: ks =>
      if kvs.any (fun kv => kv.1 == k) then pathMissing (mappingGetD kvs k) ks else true
  | PyVal.pynone, _ :: _ => false
  | PyVal.pybool _, _ :: _ => false
  | PyVal.num _, _ :: _ => false
  | PyVal.str _, _ :: _ => false
  | PyVal.list _, _ :: _ => false
  | PyVal.tuple _, _ :: _ => false

/-! ## Snapshot files: FotmobEntity.get_local_file / save
(api.py lines 111-120 and 154-161) -/

/-- One snapshot file of a fixed entity, on disk as
league_id_ts.json style names: `ts` is the filename timestamp
`round(time.time())` taken at write time, `mtime` the filesystem
modification/change time, `payload` the stored JSON. -/
structure SnapFile where
  ts : ℤ
  mtime : ℚ
  payload : PyVal

/-- Model of `FotmobEntity.get_local_file` (api.py lines 111-120): of the
files matching the glob and regex patterns of the entity, the one with the
greatest mtime (Python `max` keeps the first maximum encountered). -/
def get_local_file : List SnapFile → Option SnapFile
  | [] => none
  | f :: fs => some (fs.foldl (fun acc g => if g.mtime > acc.mtime then g else acc) f)

/-- Model of `FotmobEntity.save(force)` (api.py lines 154-161): when
`should_update_local(force=force)` holds — `save` never passes an expiry,
so the default 168-hour threshold applies — the freshly fetched payload is
written under the filename timestamp `round(time.time())`.
`open(path, "w")` truncates, so a file whose name carries the same rounded
second is replaced; any other write creates a new file.  Returns the new
file list and whether a write (hence a fetch) happened. -/
def entity_save (files : List SnapFile) (now : ℚ) (payload : PyVal) (force : Bool) :
    List SnapFile × Bool :=
  let localAge := (get_local_file files).map (fun f => (now - f.mtime) / 3600)
  if should_update_local force none localAge then
    let ts := pyRound now
    (⟨ts, now, payload⟩ :: files.filter (fun f => f.ts != ts), true)
  else (files, false)

/-! ## League.get_totw_for_week (objects.py lines 31-85) -/

/-- A stored completed-round file, on disk as
league_id_totw_stage_roundid.json, for a fixed league. -/
structure TotwFile where
  stage : Nat
  roundid : Nat
  mtime : ℚ
  payload : PyVal

/-- A TOTW link, identified by its stages and roundid query parameters
(extracted in the source with `parse_qs(urlparse(totw_link).query)`). -/
structure TotwLink where
  stage : Nat
  roundid : Nat

/-- One entry of the rounds list of the round index: the round id (compared
through `int()`) and its link. -/
structure RoundEntry where
  roundId : ℤ
  link : TotwLink

/-- The round index `totw_data` returned by `handle_response(rounds_url)`:
the completion flag and link of the last round, and the per-round list. -/
structure TotwIndex where
  lastIsCompleted : Bool
  lastLink : TotwLink
  rounds : List RoundEntry

/-- The ValueErrors raised by `get_totw_for_week`, distinguished by their
message; `roundNotFound` carries the advertised valid bounds
("Try an int from 1 to len(totw_rounds)"). -/
inductive TotwError where
  | noRoundsLink
  | noTotwData
  | roundNotFound (lo : ℤ) (hi : Nat)
  | noTotwFromLink

/-- Result of a successful `get_totw_for_week` call: the returned payload,
the stored files afterwards, whether the upstream round index was fetched
(i.e. the current round was re-resolved), and which TOTW links were
fetched. -/
structure TotwResult where
  payload : PyVal
  files : List TotwFile
  indexFetched : Bool
  linksFetched : List TotwLink

/-- Python `max(paths, key=os.path.getmtime)` over totw files (`max` keeps
the first maximum encountered). -/
def maxTotwByMtime : List TotwFile → Option TotwFile
  | [] => none
  | f :: fs => some (fs.foldl (fun acc g => if g.mtime > acc.mtime then g else acc) f)

/-- The local-file early return of `get_totw_for_week` (objects.py lines
33-47): glob for stored files (all totw files when `week == 0`, exactly the
files of round `week` otherwise), take the most recently modified, and —
for a specific week, after the `re.match` check on the filename — return
its payload.  `none` when the call falls through to the fetch path. -/
def totwLocalHit (files : List TotwFile) (week : ℤ) : Option PyVal :=
  let matching := if week = 0 then files
    else files.filter (fun f => (f.roundid : ℤ) == week)
  match maxTotwByMtime matching with
  | none => none
  | some f =>
      if week = 0 then some f.payload
      else if (f.roundid : ℤ) == week then some f.payload
      else none

/-- The completed-round save (objects.py lines 77-83): write the
league_id_totw_stage_roundid.json file only when no file of that exact
name already exists. -/
def saveCompletedRound (files : List TotwFile) (link : TotwLink) (payload : PyVal)
    (now : ℚ) : List TotwFile :=
  if files.any (fun f => f.stage == link.stage && f.roundid == link.roundid) then files
  else ⟨link.stage, link.roundid, now, payload⟩ :: files

/-- The fetch path of `get_totw_for_week` (objects.py lines 49-85):
resolve the rounds link (error if the league data has none), fetch the
round index (error if falsy), pick the last round for `week == 0` or the
entry with matching roundId otherwise (error carrying the bounds 1 and
`len(totw_rounds)` if none matches), fetch the TOTW of that round (error
if falsy), and persist it when the completion flag of the LAST round —
note: also for specific weeks — is true. -/
def totwFetchPath (files : List TotwFile) (hasRoundsLink : Bool)
    (index : Option TotwIndex) (fetchTotw : TotwLink → Option PyVal) (now : ℚ)
    (week : ℤ) : Except TotwError TotwResult :=
  if !hasRoundsLink then Except.error TotwError.noRoundsLink
  else match index with
  | none => Except.error TotwError.noTotwData
  | some idx =>
      if week = 0 then
        match fetchTotw idx.lastLink with
        | none => Except.error TotwError.noTotwFromLink
        | some totw =>
            let files' := if idx.lastIsCompleted
              then saveCompletedRound files idx.lastLink totw now else files
            Except.ok ⟨totw, files', true, [idx.lastLink]⟩
      else
        match idx.rounds.filter (fun r => r.roundId == week) with
        | [] => Except.error (TotwError.roundNotFound 1 idx.rounds.length)
        | r :: _ =>
            match fetchTotw r.link with
            | none => Except.error TotwError.noTotwFromLink
            | some totw =>
                let files' := if idx.lastIsCompleted
                  then saveCompletedRound files r.link totw now else files
                Except.ok ⟨totw, files', true, [r.link]⟩

/-- Model of `League.get_totw_for_week(week)` (objects.py lines 31-85):
the local early return, falling through to the fetch path.
`hasRoundsLink` models `get_item("stats", "seasonStatLinks")` being
truthy; `index` is what `handle_response(rounds_url)` returns (`none` for
the falsy empty dict); `fetchTotw` is `handle_response` on a TOTW link. -/
def get_totw_for_week (files : List TotwFile) (hasRoundsLink : Bool)
    (index : Option TotwIndex) (fetchTotw : TotwLink → Option PyVal) (now : ℚ)
    (week : ℤ) : Except TotwError TotwResult :=
  match totwLocalHit files week with
  | some payload => Except.ok ⟨payload, files, false, []⟩
  | none => totwFetchPath files hasRoundsLink index fetchTotw now week

/-! ## Theorems -/

namespace PyVal

theorem convertList_eq_map (xs : List PyVal) (b : Bool) :
    convertList xs b = xs.map (fun x => convert x b) := by
  induction xs with
  | nil => rfl
  | cons x xs ih => simp [convertList, ih]

theorem convertKVs_eq_map (kvs : List (String × PyVal)) (b : Bool) :
    convertKVs kvs b = kvs.map (fun kv => (kv.1, convert kv.2 b)) := by
  induction kvs with
  | nil => rfl
  | cons kv kvs ih => obtain ⟨k, v⟩ := kv; simp [convertKVs, ih]

theorem isJsonReprList_eq (xs : List PyVal) :
    isJsonReprList xs = xs.all (fun x => isJsonRepr x) := by
  induction xs with
  | nil => rfl
  | cons x xs ih => simp [isJsonReprList, ih]

theorem isJsonReprKVs_eq (kvs : List (String × PyVal)) :
    isJsonReprKVs kvs = kvs.all (fun kv => isJsonRepr kv.2) := by
  induction kvs with
  | nil => rfl
  | cons kv kvs ih => obtain ⟨k, v⟩ := kv; simp [isJsonReprKVs, ih]

/-- Structural induction principle for `PyVal` exposing the list members. -/
theorem inductOn {motive : PyVal → Prop}
    (h0 : motive pynone) (h1 : ∀ b, motive (pybool b))
    (h2 : ∀ q, motive (num q)) (h3 : ∀ s, motive (str s))
    (h4 : ∀ xs, (∀ x ∈ xs, motive x) → motive (list xs))
    (h5 : ∀ xs, (∀ x ∈ xs, motive x) → motive (tuple xs))
    (h6 : ∀ kvs, (∀ kv ∈ kvs, motive kv.2) → motive (dict kvs))
    (h7 : ∀ kvs, (∀ kv ∈ kvs, motive kv.2) → motive (proxy kvs)) :
    ∀ x, motive x
  | pynone => h0
  | pybool b => h1 b
  | num q => h2 q
  | str s => h3 s
  | list xs => h4 xs (fun x _ => inductOn h0 h1 h2 h3 h4 h5 h6 h7 x)
  | tuple xs => h5 xs (fun x _ => inductOn h0 h1 h2 h3 h4 h5 h6 h7 x)
  | dict kvs => h6 kvs (fun kv _ => inductOn h0 h1 h2 h3 h4 h5 h6 h7 kv.2)
  | proxy kvs => h7 kvs (fun kv _ => inductOn h0 h1 h2 h3 h4 h5 h6 h7 kv.2)
termination_by x => sizeOf x
decreasing_by
  · have := List.sizeOf_lt_of_mem ‹_›
    simp only [list.sizeOf_spec]
    omega
  · have := List.sizeOf_lt_of_mem ‹_›
    simp only [tuple.sizeOf_spec]
    omega
  · rename_i kv hmem
    have h' := List.sizeOf_lt_of_mem hmem
    obtain ⟨a, b⟩ := kv
    simp only [dict.sizeOf_spec, Prod.mk.sizeOf_spec] at *
    omega
  · rename_i kv hmem
    have h' := List.sizeOf_lt_of_mem hmem
    obtain ⟨a, b⟩ := kv
    simp only [proxy.sizeOf_spec, Prod.mk.sizeOf_spec] at *
    omega

theorem map_eq_self {α : Type} (xs : List α) (f : α → α) (h : ∀ x ∈ xs, f x = x) :
    xs.map f = xs := by
  induction xs with
  | nil => rfl
  | cons x xs ih =>
    simp only [List.map_cons, h x (by simp)]
    rw [ih (fun y hy => h y (by simp [hy]))]

/-- Claim C2: for every JSON-representable tree (built only from null,
bool, number, string, mapping, sequence), converting to the immutable view
and back is the identity — `to_mutable (to_immutable x) = x` — with every
mapping node frozen, every sequence node a fixed-length tuple, and key
insertion order preserved (mapping nodes are ordered association lists). -/
theorem roundtrip (x : PyVal) (h : isJsonRepr x = true) :
    to_mutable (to_immutable x) = x := by
  induction x using inductOn with
  | h0 => rfl
  | h1 b => rfl
  | h2 q => rfl
  | h3 s => rfl
  | h4 xs ih =>
    rw [isJsonRepr, isJsonReprList_eq, List.all_eq_true] at h
    rw [to_immutable, to_mutable, convert, convert, convertList_eq_map,
      convertList_eq_map, List.map_map]
    refine congrArg list (map_eq_self xs _ (fun x hx => ?_))
    simp only [Function.comp_apply]
    exact ih x hx (h x hx)
  | h5 xs ih => simp [isJsonRepr] at h
  | h6 kvs ih =>
    rw [isJsonRepr, isJsonReprKVs_eq, List.all_eq_true] at h
    rw [to_immutable, to_mutable, convert, convert, convertKVs_eq_map,
      convertKVs_eq_map, List.map_map]
    refine congrArg dict (map_eq_self kvs _ (fun kv hkv => ?_))
    obtain ⟨k, v⟩ := kv
    have := ih ⟨k, v⟩ hkv (h ⟨k, v⟩ hkv)
    simp only [Function.comp_apply]
    rw [show convert (convert v true) false = to_mutable (to_immutable v) from rfl, this]
  | h7 kvs ih => simp [isJsonRepr] at h

end PyVal

theorem C2_roundtrip_witness :
    PyVal.isJsonRepr
        (PyVal.dict [("a", PyVal.list [PyVal.num 1, PyVal.pynone]), ("b", PyVal.str "x")])
      = true
      ∧ PyVal.to_mutable (PyVal.to_immutable
          (PyVal.dict [("a", PyVal.list [PyVal.num 1, PyVal.pynone]), ("b", PyVal.str "x")]))
        = PyVal.dict [("a", PyVal.list [PyVal.num 1, PyVal.pynone]), ("b", PyVal.str "x")] :=
  ⟨rfl, PyVal.roundtrip
    (PyVal.dict [("a", PyVal.list [PyVal.num 1, PyVal.pynone]), ("b", PyVal.str "x")]) rfl⟩

/-- Claim C1 (counterexample): with expiry 0.84 and a snapshot aged 0.82
hours, the rule of the claim says the snapshot is fresh (0.82 is at most
0.84, so no update), but the code rounds the expiry to one decimal (0.8)
and reports an update is required. -/
theorem C1_counterexample :
    ¬ (should_update_local false (some (84/100)) (some (41/50))
        = !(specFreshC1 false (some (84/100)) (some (41/50)))) := by
  have h1 : should_update_local false (some (84/100)) (some (41/50)) = true := by
    show decide ((41:ℚ)/50 > round1 (effectiveExpiry (some (84/100)))) = true
    rw [decide_eq_true_eq]
    have he : effectiveExpiry (some ((84:ℚ)/100)) = 84/100 := if_neg (by norm_num)
    have hfloor : Int.floor ((10:ℚ) * (84/100)) = 8 := by
      rw [Int.floor_eq_iff]
      norm_num
    rw [he, round1, pyRound, hfloor]
    norm_num
  have h2 : specFreshC1 false (some (84/100)) (some (41/50)) = true := by
    show decide ((41:ℚ)/50 ≤ (some ((84:ℚ)/100)).getD (24*7)) = true
    rw [decide_eq_true_eq]
    norm_num
  rw [h1, h2]
  simp

/-- Claim C1 (amended): `should_update_local` returns true exactly when the
snapshot is not fresh, where freshness is: never fresh under force; not
fresh with no local snapshot; otherwise fresh iff the age in hours is at
most `round1` of the effective expiry (the expiry argument when truthy,
168 hours otherwise). -/
theorem C1_amended_holds (force : Bool) (expiry : Option ℚ) (localAgeHours : Option ℚ) :
    should_update_local force expiry localAgeHours
      = !(specFreshC1Fixed force expiry localAgeHours) := by
  cases force with
  | true => rfl
  | false =>
    cases localAgeHours with
    | none => rfl
    | some hours =>
      show decide (hours > round1 (effectiveExpiry expiry))
          = !(decide (hours ≤ round1 (effectiveExpiry expiry)))
      rw [← decide_not, decide_eq_decide]
      exact not_le.symm

/-- Claim C10: passing expiry 0 (a falsy value, like omitting the argument)
makes `should_update_local` behave exactly as with no expiry argument; in
both cases the default threshold of 168 hours (24*7) is applied, so a
zero-hour always-stale expiry cannot be requested through this parameter. -/
theorem C10_zero_expiry_is_default :
    (∀ force localAgeHours,
        should_update_local force (some 0) localAgeHours
          = should_update_local force none localAgeHours)
    ∧ ∀ hours, should_update_local false (some 0) (some hours) = decide (168 < hours) := by
  constructor
  · intro force localAgeHours
    rfl
  · intro hours
    have h168 : round1 (effectiveExpiry (some 0)) = 168 := by
      simp [effectiveExpiry, round1, pyRound]
      norm_num [Int.floor_intCast]
    simp [should_update_local, h168]

/-- Claim C3 (counterexample): a fetch failing with HTTP status 500, with
no prior snapshot in play, does not propagate a FetchError:
`handle_response` swallows the failure and the entity fetch path returns
the frozen empty mapping — exactly the fabricated default the claim rules
out. -/
theorem C3_counterexample :
    get_api_data (HttpOutcome.httpError 500) ≠ Except.error FetchError.fetchError
      ∧ get_api_data (HttpOutcome.httpError 500) = Except.ok (PyVal.proxy []) := by
  have he : get_api_data (HttpOutcome.httpError 500) = Except.ok (PyVal.proxy []) := rfl
  refine ⟨?_, he⟩
  rw [he]
  simp

/-- Claim C3 (amended): for every failing fetch outcome (network error,
non-2xx status, undecodable body) the entity fetch path raises nothing and
returns the frozen empty mapping produced by the catch-all of
`handle_response`. -/
theorem C3_amended_holds (o : HttpOutcome) (h : o.isSuccess = false) :
    get_api_data o = Except.ok (PyVal.proxy []) := by
  cases o with
  | success body => exact absurd h (by simp [HttpOutcome.isSuccess])
  | httpError status => rfl
  | jsonDecodeError => rfl
  | networkError => rfl

theorem C3_amended_witness :
    HttpOutcome.isSuccess (HttpOutcome.httpError 404) = false
      ∧ get_api_data (HttpOutcome.httpError 404) = Except.ok (PyVal.proxy []) :=
  ⟨rfl, C3_amended_holds (HttpOutcome.httpError 404) rfl⟩

/-- Claim C7 (counterexample): starting from an empty cache, a call whose
computation fails (network error) returns the swallowed empty dict — the
failure does not propagate — and a second call with the same signature 10
seconds later (well inside the 3600-second TTL) is answered from the cache
without re-attempting the computation, contradicting the claim that
failures are never cached. -/
theorem C7_counterexample :
    (get_player_cached [] 0 3600 7 HttpOutcome.networkError).1 = PyVal.dict []
      ∧ (get_player_cached
          ((get_player_cached [] 0 3600 7 HttpOutcome.networkError).2.1)
          10 3600 7 HttpOutcome.networkError).2.2 = false := by
  have hst : (get_player_cached [] 0 3600 7 HttpOutcome.networkError).2.1
      = [⟨7, PyVal.dict [], 0 + 3600⟩] := rfl
  refine ⟨rfl, ?_⟩
  rw [hst, show ((0:ℚ) + 3600) = 3600 from by norm_num]
  rfl

/-- Claim C7 (amended): when the computation behind the TTL cache fails, no
exception reaches the caller — `handle_response` returns the empty dict —
and that empty dict IS cached for the signature; a second call with the
same signature within the TTL window is served from the cache without
re-running the computation. -/
theorem C7_amended_holds (pid : Nat) (o o' : HttpOutcome) (t1 t2 ttl : ℚ)
    (ho : o.isSuccess = false) (h12 : t2 < t1 + ttl) :
    get_player_cached [] t1 ttl pid o
        = (PyVal.dict [], [⟨pid, PyVal.dict [], t1 + ttl⟩], true)
      ∧ get_player_cached [⟨pid, PyVal.dict [], t1 + ttl⟩] t2 ttl pid o'
        = (PyVal.dict [], [⟨pid, PyVal.dict [], t1 + ttl⟩], false) := by
  constructor
  · cases o with
    | success body => exact absurd ho (by simp [HttpOutcome.isSuccess])
    | httpError status => rfl
    | jsonDecodeError => rfl
    | networkError => rfl
  · have hfind : List.find?
        (fun (e : CacheEntry) => pid == e.key && decide (t2 < e.expires))
        [⟨pid, PyVal.dict [], t1 + ttl⟩]
        = some ⟨pid, PyVal.dict [], t1 + ttl⟩ := by
      simp [List.find?, h12]
    simp [get_player_cached, hfind]

theorem ten_lt_zero_add_ttl : (10:ℚ) < 0 + 3600 := by norm_num

theorem C7_amended_witness :
    HttpOutcome.isSuccess HttpOutcome.networkError = false
      ∧ (10:ℚ) < 0 + 3600
      ∧ (get_player_cached [] 0 3600 7 HttpOutcome.networkError
          = (PyVal.dict [], [⟨7, PyVal.dict [], 0 + 3600⟩], true)
        ∧ get_player_cached [⟨7, PyVal.dict [], 0 + 3600⟩] 10 3600 7 HttpOutcome.networkError
          = (PyVal.dict [], [⟨7, PyVal.dict [], 0 + 3600⟩], false)) :=
  ⟨rfl, ten_lt_zero_add_ttl,
    C7_amended_holds 7 HttpOutcome.networkError HttpOutcome.networkError 0 10 3600 rfl
      ten_lt_zero_add_ttl⟩

theorem get_item_emptyDict (args : List String) :
    get_item (PyVal.dict []) args = some (PyVal.dict []) := by
  induction args with
  | nil => rfl
  | cons k ks ih =>
    show getStep (PyVal.dict []) k >>= (fun d => get_item d ks) = some (PyVal.dict [])
    exact ih

/-- Claim C9: for every entity-local data tree and every key path, if the
lookup completes without raising (every intermediate value actually
reached is a mapping) and some key along the path is absent at its mapping
level, then `get_item` substitutes the empty mapping at that point and
returns the empty mapping — a missing field is indistinguishable from an
empty one. -/
theorem C9_get_item_missing (d : PyVal) (args : List String) (v : PyVal)
    (hok : get_item d args = some v) (hmiss : pathMissing d args = true) :
    v = PyVal.dict [] := by
  induction args generalizing d with
  | nil => exact absurd hmiss (by simp [pathMissing])
  | cons k ks ih =>
    cases d with
    | dict kvs =>
      rw [pathMissing] at hmiss
      rw [show get_item (PyVal.dict kvs) (k :: ks)
            = getStep (PyVal.dict kvs) k >>= (fun d' => get_item d' ks) from rfl] at hok
      by_cases hk : kvs.any (fun kv => kv.1 == k) = true
      · rw [if_pos hk] at hmiss
        exact ih (mappingGetD kvs k) hok hmiss
      · rw [show (getStep (PyVal.dict kvs) k) = some (mappingGetD kvs k) from rfl] at hok
        have habs : mappingGetD kvs k = PyVal.dict [] := by
          rw [mappingGetD]
          have : kvs.find? (fun kv => kv.1 == k) = none := by
            rw [List.find?_eq_none]
            intro kv hkv
            intro hcontra
            exact hk (List.any_eq_true.mpr ⟨kv, hkv, hcontra⟩)
          rw [this]
        rw [habs] at hok
        rw [show ((do
              let d' ← some (PyVal.dict [])
              get_item d' ks) : Option PyVal)
            = get_item (PyVal.dict []) ks from rfl] at hok
        rw [get_item_emptyDict ks] at hok
        exact (Option.some.inj hok).symm
    | proxy kvs =>
      rw [pathMissing] at hmiss
      rw [show get_item (PyVal.proxy kvs) (k :: ks)
            = getStep (PyVal.proxy kvs) k >>= (fun d' => get_item d' ks) from rfl] at hok
      by_cases hk : kvs.any (fun kv => kv.1 == k) = true
      · rw [if_pos hk] at hmiss
        exact ih (mappingGetD kvs k) hok hmiss
      · rw [show (getStep (PyVal.proxy kvs) k) = some (mappingGetD kvs k) from rfl] at hok
        have habs : mappingGetD kvs k = PyVal.dict [] := by
          rw [mappingGetD]
          have : kvs.find? (fun kv => kv.1 == k) = none := by
            rw [List.find?_eq_none]
            intro kv hkv
            intro hcontra
            exact hk (List.any_eq_true.mpr ⟨kv, hkv, hcontra⟩)
          rw [this]
        rw [habs] at hok
        rw [show ((do
              let d' ← some (PyVal.dict [])
              get_item d' ks) : Option PyVal)
            = get_item (PyVal.dict []) ks from rfl] at hok
        rw [get_item_emptyDict ks] at hok
        exact (Option.some.inj hok).symm
    | pynone => exact absurd hmiss (by rw [pathMissing]; simp)
    | pybool b => exact absurd hmiss (by rw [pathMissing]; simp)
    | num q => exact absurd hmiss (by rw [pathMissing]; simp)
    | str s => exact absurd hmiss (by rw [pathMissing]; simp)
    | list xs => exact absurd hmiss (by rw [pathMissing]; simp)
    | tuple xs => exact absurd hmiss (by rw [pathMissing]; simp)

theorem C9_get_item_witness :
    get_item (PyVal.proxy [("a", PyVal.proxy [])]) ["b", "c"] = some (PyVal.dict [])
      ∧ pathMissing (PyVal.proxy [("a", PyVal.proxy [])]) ["b", "c"] = true
      ∧ PyVal.dict [] = PyVal.dict [] :=
  ⟨rfl, rfl,
    (C9_get_item_missing (PyVal.proxy [("a", PyVal.proxy [])]) ["b", "c"]
      (PyVal.dict []) rfl rfl).symm ▸ rfl⟩

theorem foldl_max_le (fs : List SnapFile) (x : SnapFile) :
    ∀ g, (g = x ∨ g ∈ fs)
      → g.mtime ≤ (fs.foldl (fun acc g' => if g'.mtime > acc.mtime then g' else acc) x).mtime := by
  induction fs generalizing x with
  | nil =>
    intro g hg
    rcases hg with rfl | hg
    · exact le_refl _
    · exact absurd hg (List.not_mem_nil g)
  | cons y fs ih =>
    intro g hg
    rw [List.foldl_cons]
    have hx : x.mtime ≤ (if y.mtime > x.mtime then y else x).mtime := by
      by_cases hc : y.mtime > x.mtime
      · rw [if_pos hc]; exact le_of_lt hc
      · rw [if_neg hc]
    have hy : y.mtime ≤ (if y.mtime > x.mtime then y else x).mtime := by
      by_cases hc : y.mtime > x.mtime
      · rw [if_pos hc]
      · rw [if_neg hc]; exact le_of_not_lt hc
    rcases hg with rfl | hg
    · exact le_trans hx (ih _ _ (Or.inl rfl))
    · rcases List.mem_cons.mp hg with rfl | hg
      · exact le_trans hy (ih _ _ (Or.inl rfl))
      · exact ih _ g (Or.inr hg)

theorem foldl_max_seed (fs : List SnapFile) (x : SnapFile)
    (h : ∀ g ∈ fs, ¬ (g.mtime > x.mtime)) :
    fs.foldl (fun acc g' => if g'.mtime > acc.mtime then g' else acc) x = x := by
  induction fs with
  | nil => rfl
  | cons y fs ih =>
    rw [List.foldl_cons, if_neg (h y (by simp))]
    exact ih (fun g hg => h g (by simp [hg]))

theorem round1_default : round1 (24 * 7) = 168 := by
  have hfl : Int.floor ((10:ℚ) * (24 * 7)) = 1680 := by
    rw [Int.floor_eq_iff]
    norm_num
  rw [round1, pyRound, hfl, if_pos (by norm_num)]
  norm_num

/-- Claim C6 (counterexample): two forced saves 0.05 seconds apart land in
the same rounded second (both 10.4 and 10.45 round to 10), so the second
write truncates the first file instead of appending: the store still holds
a single snapshot, holding the payload of the second write — refuting
"never overwrites an existing one: each write appends". -/
theorem C6_counterexample :
    (entity_save (entity_save [] (52/5) (PyVal.str "a") true).1
        (209/20) (PyVal.str "b") true).1
      = [⟨10, 209/20, PyVal.str "b"⟩]
      ∧ ((entity_save (entity_save [] (52/5) (PyVal.str "a") true).1
          (209/20) (PyVal.str "b") true).1).length
        ≠ ((entity_save [] (52/5) (PyVal.str "a") true).1).length + 1 := by
  have hts1 : pyRound (52/5) = 10 := by
    have hfl : Int.floor ((52:ℚ)/5) = 10 := by
      rw [Int.floor_eq_iff]
      norm_num
    rw [pyRound, hfl, if_pos (by norm_num)]
  have hts2 : pyRound (209/20) = 10 := by
    have hfl : Int.floor ((209:ℚ)/20) = 10 := by
      rw [Int.floor_eq_iff]
      norm_num
    rw [pyRound, hfl, if_pos (by norm_num)]
  have h1 : entity_save [] (52/5) (PyVal.str "a") true = ([⟨10, 52/5, PyVal.str "a"⟩], true) := by
    rw [entity_save]
    simp only [get_local_file, Option.map_none, hts1]
    rfl
  have h2 : entity_save [⟨10, 52/5, PyVal.str "a"⟩] (209/20) (PyVal.str "b") true
      = ([⟨10, 209/20, PyVal.str "b"⟩], true) := by
    rw [entity_save]
    simp only [get_local_file, List.foldl_nil, hts2]
    split
    · rfl
    · rename_i hcon
      exact absurd rfl hcon
  rw [h1, h2]
  simp

/-- Claim C6 (amended): a write appends a new snapshot keyed by the entity
and the rounded write time, except when an existing snapshot for the key
carries the same rounded second, in which case that file is overwritten.
In particular, for a store whose most recent snapshot is stale (older than
the 168-hour default) and whose snapshots all carry a different rounded
second than the write time, a get-triggered refetch appends: the store
gains one snapshot and the latest-file lookup returns the new one. -/
theorem C6_amended_holds (files : List SnapFile) (f : SnapFile) (now : ℚ) (payload : PyVal)
    (hmax : get_local_file files = some f)
    (hstale : (now - f.mtime) / 3600 > 168)
    (hts : ∀ g ∈ files, g.ts ≠ pyRound now) :
    entity_save files now payload false = (⟨pyRound now, now, payload⟩ :: files, true)
      ∧ (entity_save files now payload false).1.length = files.length + 1
      ∧ get_local_file (⟨pyRound now, now, payload⟩ :: files)
        = some ⟨pyRound now, now, payload⟩ := by
  have hnowgt : ∀ g ∈ files, g.mtime < now := by
    intro g hg
    have hle : g.mtime ≤ f.mtime := by
      cases files with
      | nil => exact absurd hg (List.not_mem_nil g)
      | cons x fs =>
        have := foldl_max_le fs x g (by
          rcases List.mem_cons.mp hg with rfl | h'
          · exact Or.inl rfl
          · exact Or.inr h')
        rw [show (fs.foldl (fun acc g' => if g'.mtime > acc.mtime then g' else acc) x) = f from
          Option.some.inj hmax] at this
        exact this
    have hf : f.mtime < now := by
      by_contra hcon
      push_neg at hcon
      have : (now - f.mtime) / 3600 ≤ 0 := by
        apply div_nonpos_of_nonpos_of_nonneg <;> linarith
      linarith
    linarith
  have hupd : should_update_local false none (some ((now - f.mtime) / 3600)) = true := by
    show decide ((now - f.mtime) / 3600 > round1 (effectiveExpiry none)) = true
    rw [show effectiveExpiry none = 24 * 7 from rfl, round1_default]
    exact decide_eq_true hstale
  have hfilter : files.filter (fun g => g.ts != pyRound now) = files := by
    apply List.filter_eq_self.mpr
    intro g hg
    exact bne_iff_ne.mpr (hts g hg)
  have hsave : entity_save files now payload false
      = (⟨pyRound now, now, payload⟩ :: files, true) := by
    rw [entity_save]
    simp only [hmax]
    rw [show Option.map (fun g => (now - g.mtime) / 3600) (some f)
          = some ((now - f.mtime) / 3600) from rfl]
    rw [if_pos hupd, hfilter]
  refine ⟨hsave, ?_, ?_⟩
  · rw [hsave]
    simp
  · rw [get_local_file]
    rw [foldl_max_seed files ⟨pyRound now, now, payload⟩
      (fun g hg => not_lt_of_gt (hnowgt g hg))]

theorem stale_age_fact : ((3600000:ℚ) - 0) / 3600 > 168 := by norm_num

theorem ts_fresh_fact : ∀ g ∈ [(⟨0, 0, PyVal.str "a"⟩ : SnapFile)], g.ts ≠ pyRound 3600000 := by
  have hp : pyRound (3600000:ℚ) = 3600000 := by
    have hfl : Int.floor ((3600000:ℚ)) = 3600000 := by
      rw [Int.floor_eq_iff]
      norm_num
    rw [pyRound, hfl, if_pos (by norm_num)]
  intro g hg
  rw [List.mem_singleton] at hg
  subst hg
  rw [hp]
  norm_num

theorem C6_amended_witness :
    get_local_file [⟨0, 0, PyVal.str "a"⟩] = some ⟨0, 0, PyVal.str "a"⟩
      ∧ ((3600000:ℚ) - 0) / 3600 > 168
      ∧ (entity_save [⟨0, 0, PyVal.str "a"⟩] 3600000 (PyVal.str "b") false
          = (⟨pyRound 3600000, 3600000, PyVal.str "b"⟩ :: [⟨0, 0, PyVal.str "a"⟩], true)
        ∧ (entity_save [⟨0, 0, PyVal.str "a"⟩] 3600000 (PyVal.str "b") false).1.length
          = [(⟨0, 0, PyVal.str "a"⟩ : SnapFile)].length + 1
        ∧ get_local_file (⟨pyRound 3600000, 3600000, PyVal.str "b"⟩ :: [⟨0, 0, PyVal.str "a"⟩])
          = some ⟨pyRound 3600000, 3600000, PyVal.str "b"⟩) :=
  ⟨rfl, stale_age_fact,
    C6_amended_holds [⟨0, 0, PyVal.str "a"⟩] ⟨0, 0, PyVal.str "a"⟩ 3600000 (PyVal.str "b")
      rfl stale_age_fact ts_fresh_fact⟩

/-- Claim C4: once a completed-round snapshot for a specific round N
(N ≠ 0) is stored for a league, every subsequent request for exactly that
round returns the stored payload unchanged, performs no fetch (neither the
round index nor any TOTW link is requested) and leaves the store untouched
— regardless of elapsed time; `get_totw_for_week` takes no force flag, so
no force can bypass the stored round. -/
theorem C4_terminal_round (files : List TotwFile) (hasRoundsLink : Bool)
    (index : Option TotwIndex) (fetchTotw : TotwLink → Option PyVal) (now : ℚ)
    (week : ℤ) (f : TotwFile)
    (hweek : week ≠ 0)
    (hstored : files.filter (fun g => (g.roundid : ℤ) == week) = [f]) :
    get_totw_for_week files hasRoundsLink index fetchTotw now week
      = Except.ok ⟨f.payload, files, false, []⟩ := by
  have hmem : f ∈ files.filter (fun g => (g.roundid : ℤ) == week) := by
    rw [hstored]
    exact List.mem_singleton.mpr rfl
  have hround : ((f.roundid : ℤ) == week) = true := (List.mem_filter.mp hmem).2
  have hhit : totwLocalHit files week = some f.payload := by
    rw [totwLocalHit]
    simp only [if_neg hweek, hstored]
    rw [show maxTotwByMtime [f] = some f from rfl]
    simp [hweek, hround]
  rw [get_totw_for_week, hhit]

theorem C4_terminal_round_witness :
    ((3:ℤ) ≠ 0
      ∧ List.filter (fun g => (g.roundid : ℤ) == 3) [(⟨2, 3, 0, PyVal.str "t"⟩ : TotwFile)]
        = [⟨2, 3, 0, PyVal.str "t"⟩])
      ∧ get_totw_for_week [⟨2, 3, 0, PyVal.str "t"⟩] false none (fun _ => none) 0 3
        = Except.ok ⟨PyVal.str "t", [⟨2, 3, 0, PyVal.str "t"⟩], false, []⟩ :=
  ⟨⟨by decide, rfl⟩,
    C4_terminal_round [⟨2, 3, 0, PyVal.str "t"⟩] false none (fun _ => none) 0 3
      ⟨2, 3, 0, PyVal.str "t"⟩ (by decide) rfl⟩

/-- Claim C5 (counterexample): with one stored (completed-round) totw
snapshot present, a request for the current round (week 0) returns the
payload of that stored snapshot and performs no re-resolution — the
upstream round index is not fetched — contradicting the claim that the
current round is always re-resolved. -/
theorem C5_counterexample :
    get_totw_for_week [⟨2, 3, 0, PyVal.str "old"⟩] true
        (some ⟨false, ⟨9, 9⟩, []⟩) (fun _ => some (PyVal.str "fresh")) 0 0
      = Except.ok ⟨PyVal.str "old", [⟨2, 3, 0, PyVal.str "old"⟩], false, []⟩
      ∧ ¬ (∃ r, get_totw_for_week [⟨2, 3, 0, PyVal.str "old"⟩] true
            (some ⟨false, ⟨9, 9⟩, []⟩) (fun _ => some (PyVal.str "fresh")) 0 0
          = Except.ok r ∧ r.indexFetched = true) := by
  refine ⟨rfl, ?_⟩
  rintro ⟨r, hr, hf⟩
  rw [show get_totw_for_week [⟨2, 3, 0, PyVal.str "old"⟩] true
        (some ⟨false, ⟨9, 9⟩, []⟩) (fun _ => some (PyVal.str "fresh")) 0 0
      = Except.ok ⟨PyVal.str "old", [⟨2, 3, 0, PyVal.str "old"⟩], false, []⟩ from rfl] at hr
  have := Except.ok.inj hr
  subst this
  simp at hf

/-- Claim C5 (amended): a week-0 request re-resolves the current round via
the upstream round index only when no totw snapshot file is stored for the
league; when any stored file exists, the most recently modified one is
returned with no fetch at all. -/
theorem C5_amended_holds (files : List TotwFile) (hasRoundsLink : Bool)
    (index : Option TotwIndex) (fetchTotw : TotwLink → Option PyVal) (now : ℚ) :
    (∀ f, maxTotwByMtime files = some f →
        get_totw_for_week files hasRoundsLink index fetchTotw now 0
          = Except.ok ⟨f.payload, files, false, []⟩)
    ∧ (files = [] → ∀ r,
        get_totw_for_week files hasRoundsLink index fetchTotw now 0 = Except.ok r
          → r.indexFetched = true) := by
  constructor
  · intro f hf
    have hhit : totwLocalHit files 0 = some f.payload := by
      rw [totwLocalHit]
      simp [hf]
    rw [get_totw_for_week, hhit]
  · intro hnil r hok
    subst hnil
    cases hasRoundsLink with
    | false =>
      exact absurd hok (by
        simp [get_totw_for_week, totwLocalHit, maxTotwByMtime, totwFetchPath])
    | true =>
      cases index with
      | none =>
        exact absurd hok (by
          simp [get_totw_for_week, totwLocalHit, maxTotwByMtime, totwFetchPath])
      | some idx =>
        cases hfetch : fetchTotw idx.lastLink with
        | none =>
          have hred : get_totw_for_week [] true (some idx) fetchTotw now 0
              = Except.error TotwError.noTotwFromLink := by
            simp [get_totw_for_week, totwLocalHit, maxTotwByMtime, totwFetchPath, hfetch]
          rw [hred] at hok
          exact absurd hok (by simp)
        | some totw =>
          have hred : get_totw_for_week [] true (some idx) fetchTotw now 0
              = Except.ok ⟨totw,
                  if idx.lastIsCompleted
                    then saveCompletedRound [] idx.lastLink totw now else [],
                  true, [idx.lastLink]⟩ := by
            simp [get_totw_for_week, totwLocalHit, maxTotwByMtime, totwFetchPath, hfetch]
          rw [hred] at hok
          rw [← Except.ok.inj hok]

theorem C5_amended_witness :
    maxTotwByMtime [⟨2, 3, 0, PyVal.str "old"⟩] = some ⟨2, 3, 0, PyVal.str "old"⟩
      ∧ get_totw_for_week [⟨2, 3, 0, PyVal.str "old"⟩] true
          (some ⟨false, ⟨9, 9⟩, []⟩) (fun _ => some (PyVal.str "fresh")) 0 0
        = Except.ok ⟨PyVal.str "old", [⟨2, 3, 0, PyVal.str "old"⟩], false, []⟩ :=
  ⟨rfl,
    (C5_amended_holds [⟨2, 3, 0, PyVal.str "old"⟩] true (some ⟨false, ⟨9, 9⟩, []⟩)
      (fun _ => some (PyVal.str "fresh")) 0).1 ⟨2, 3, 0, PyVal.str "old"⟩ rfl⟩

/-- Claim C8: requesting a specific round outside the known valid range —
the upstream index lists rounds with ids within 1..n (n the number of
rounds) and the requested week lies outside that range, with no stored
snapshot for it — fails with the round-not-found ValueError carrying the
valid bounds 1 and n; no data is returned and no other error is raised. -/
theorem C8_round_not_found (files : List TotwFile) (idx : TotwIndex)
    (fetchTotw : TotwLink → Option PyVal) (now : ℚ) (week : ℤ)
    (hweek : week ≠ 0)
    (hnostore : files.filter (fun g => (g.roundid : ℤ) == week) = [])
    (hvalid : ∀ r ∈ idx.rounds, 1 ≤ r.roundId ∧ r.roundId ≤ (idx.rounds.length : ℤ))
    (hout : week < 1 ∨ (idx.rounds.length : ℤ) < week) :
    get_totw_for_week files true (some idx) fetchTotw now week
      = Except.error (TotwError.roundNotFound 1 idx.rounds.length) := by
  have hhit : totwLocalHit files week = none := by
    rw [totwLocalHit]
    simp only [if_neg hweek, hnostore]
    rfl
  have hfilter : idx.rounds.filter (fun r => r.roundId == week) = [] := by
    rw [List.filter_eq_nil_iff]
    intro r hr
    have hb := hvalid r hr
    simp only [beq_iff_eq]
    rcases hout with h1 | h1 <;> omega
  rw [get_totw_for_week, hhit, totwFetchPath]
  simp [hweek, hfilter]

theorem C8_round_not_found_witness :
    ((7:ℤ) ≠ 0
      ∧ List.filter (fun g => (g.roundid : ℤ) == 7) ([] : List TotwFile) = []
      ∧ (∀ r ∈ [(⟨1, ⟨5, 1⟩⟩ : RoundEntry), ⟨2, ⟨5, 2⟩⟩],
          1 ≤ r.roundId ∧ r.roundId ≤ (([(⟨1, ⟨5, 1⟩⟩ : RoundEntry), ⟨2, ⟨5, 2⟩⟩]).length : ℤ))
      ∧ ((7:ℤ) < 1 ∨ (([(⟨1, ⟨5, 1⟩⟩ : RoundEntry), ⟨2, ⟨5, 2⟩⟩]).length : ℤ) < 7))
      ∧ get_totw_for_week [] true (some ⟨false, ⟨9, 9⟩, [⟨1, ⟨5, 1⟩⟩, ⟨2, ⟨5, 2⟩⟩]⟩)
          (fun _ => none) 0 7
        = Except.error (TotwError.roundNotFound 1
            ([(⟨1, ⟨5, 1⟩⟩ : RoundEntry), ⟨2, ⟨5, 2⟩⟩]).length) :=
  ⟨⟨by decide, rfl, by decide, by decide⟩,
    C8_round_not_found [] ⟨false, ⟨9, 9⟩, [⟨1, ⟨5, 1⟩⟩, ⟨2, ⟨5, 2⟩⟩]⟩ (fun _ => none) 0 7
      (by decide) rfl (by decide) (by decide)⟩
